import Mathlib

/-!
Shallow embedding of the `inventree-magento2-sync` plugin
(`src/inventree_magento2_sync/plugin.py` and
`src/inventree_magento2_sync/magento_api.py`).

Pure data and control flow are translated directly from the Python source.
External effects are made explicit:
  * HTTP traffic is an oracle `World` giving the outcome of each attempt of
    each request, and every function returns the list of requests it issued;
  * the host database is an oracle `Db` whose reads may fail
    (an `Except` error models a raised exception);
  * log output is a list of `LogEntry` values (one constructor per
    `logger.*` call site that carries behavioural information; the purely
    diagnostic `print`/duplicate-level log spam of the source is not
    modelled).
Quantities are modelled as `Rat` (the source sums Django decimal columns and
converts with `float`).
-/

namespace M2QtySync

/-- ASCII substring test, modelling Python's `in` operator on strings
(used by the source as `"404" in str(e)`, `"stock" in event.lower()`,
`"deleted" not in event`). -/
def listPrefixEq : List Char → List Char → Bool
  | [], _ => true
  | _ :: _, [] => false
  | a :: as, b :: bs => a == b && listPrefixEq as bs

/-- Substring occurrence on character lists. -/
def listOccurs (pat : List Char) : List Char → Bool
  | [] => pat.isEmpty
  | c :: rest => listPrefixEq pat (c :: rest) || listOccurs pat rest

/-- Here `strContains s pat` is Python's `pat in s` for strings. -/
def strContains (s pat : String) : Bool :=
  listOccurs pat.toList s.toList

/-- ASCII lowercasing of one character, modelling Python's `str.lower`
on the ASCII event names the plugin compares (kept kernel-computable). -/
def lowerChar (c : Char) : Char :=
  if 65 ≤ c.toNat && c.toNat ≤ 90 then Char.ofNat (c.toNat + 32) else c

/-- ASCII lowercasing of a string (Python `event.lower()`). -/
def toLowerStr (s : String) : String :=
  ⟨s.toList.map lowerChar⟩

/-- Equality of `Except` values is decidable when it is on both sides;
needed to evaluate the embedded client on concrete worlds. -/
instance {ε α : Type} [DecidableEq ε] [DecidableEq α] :
    DecidableEq (Except ε α) := fun a b =>
  match a, b with
  | .ok x, .ok y =>
    if h : x = y then .isTrue (by rw [h])
    else .isFalse (fun hc => h (Except.ok.inj hc))
  | .error x, .error y =>
    if h : x = y then .isTrue (by rw [h])
    else .isFalse (fun hc => h (Except.error.inj hc))
  | .ok _, .error _ => .isFalse (fun hc => Except.noConfusion hc)
  | .error _, .ok _ => .isFalse (fun hc => Except.noConfusion hc)

/-! ## HTTP model (`magento_api.py`) -/

/-- Payload of the stock update request:
`{"stockItem": {"qty": ..., "is_in_stock": ...}}`. -/
structure StockItemPayload where
  qty : Rat
  is_in_stock : Bool
deriving DecidableEq, Repr

/-- Request body: GET requests carry none, the stock PUT carries the
`stockItem` payload. -/
inductive Body
  | empty
  | stock (p : StockItemPayload)
deriving DecidableEq, Repr

/-- One outbound HTTP request attempt. -/
structure Request where
  method : String
  endpoint : String
  body : Body
deriving DecidableEq, Repr

/-- Outcome of one HTTP attempt, decided by the environment:
a 2xx response with body text, a non-2xx response, a connection-level
failure, or a timeout. -/
inductive HttpOutcome
  | success (text : String)
  | status (code : Nat) (text : String)
  | connError (msg : String)
  | timeout
deriving Repr

/-- The network environment: outcome of attempt number `n` (0-based) of a
request with the given method and endpoint. -/
def World := String → String → Nat → HttpOutcome

/-- Error raised by the HTTP session after its internal retry policy. -/
inductive SessionError
  | retryError (code : Nat)
  | connectionError (msg : String)
  | timeoutError
deriving DecidableEq, Repr

/-- Transient status codes that are retried
(`status_forcelist=[429, 500, 502, 503, 504]` in `Magento2Client.__init__`). -/
def status_forcelist : List Nat := [429, 500, 502, 503, 504]

/-- Methods eligible for retry (`allowed_methods=["GET", "POST", "PUT"]`). -/
def retry_allowed_methods : List String := ["GET", "POST", "PUT"]

/-- Bound on retries (`Retry(total=3, ...)`): up to 3 retries after the
first attempt. -/
def retry_total : Nat := 3

/-- Modelled from the spec: the retry loop itself lives in the third-party
HTTP stack (`urllib3.util.retry.Retry` mounted via `HTTPAdapter`), not in
this repository; it is modelled from the spec's retry policy ("idempotent
requests retried with exponential backoff (bounded attempt count) on a
defined set of transient status codes (429, 500, 502, 503, 504) and on
connection-level failures", timeouts fatal) with the configuration taken
from `Magento2Client.__init__`.  Arguments: retries still allowed, then the
0-based index of the current attempt.  Returns the total number of attempts
made and either the final response `(status, text)` or the session-level
error. -/
def sessionAttempt (world : World) (method endpoint : String) :
    Nat → Nat → Nat × Except SessionError (Nat × String)
  | 0, attempt =>
    match world method endpoint attempt with
    | .success t => (attempt + 1, .ok (200, t))
    | .status code t =>
      if status_forcelist.contains code && retry_allowed_methods.contains method then
        (attempt + 1, .error (.retryError code))
      else
        (attempt + 1, .ok (code, t))
    | .connError m => (attempt + 1, .error (.connectionError m))
    | .timeout => (attempt + 1, .error .timeoutError)
  | r + 1, attempt =>
    match world method endpoint attempt with
    | .success t => (attempt + 1, .ok (200, t))
    | .status code t =>
      if status_forcelist.contains code && retry_allowed_methods.contains method then
        sessionAttempt world method endpoint r (attempt + 1)
      else
        (attempt + 1, .ok (code, t))
    | .connError _ => sessionAttempt world method endpoint r (attempt + 1)
    | .timeout => (attempt + 1, .error .timeoutError)

/-- Model of `self.session.request(...)`: one logical request through the retrying
session. -/
def session_request (world : World) (method endpoint : String) :
    Nat × Except SessionError (Nat × String) :=
  sessionAttempt world method endpoint retry_total 0

/-- Model of `Magento2Client._make_request`.  Returns the requests actually put on
the wire (one `Request` per attempt) and either the response body text or
the message of the raised `Magento2APIError`.  `response.raise_for_status()`
raises for status codes ≥ 400, producing the `"HTTP {code}: {text}"`
message; connection errors, timeouts, and errors raised out of the retry
policy map to the messages of the corresponding `except` branches. -/
def make_request (world : World) (method endpoint : String) (json_data : Body)
    (timeout : Nat) : List Request × Except String String :=
  let (n, r) := session_request world method endpoint
  let trace := List.replicate n ⟨method, endpoint, json_data⟩
  match r with
  | .ok (code, text) =>
    if 400 ≤ code then (trace, .error s!"HTTP {code}: {text}")
    else (trace, .ok text)
  | .error (.connectionError m) => (trace, .error s!"Connection error: {m}")
  | .error .timeoutError => (trace, .error s!"Request timeout after {timeout}s")
  | .error (.retryError code) =>
    (trace, .error s!"Unexpected error: too many {code} error responses")

/-- Endpoint of `get_product_by_sku`: `f"/rest/V1/products/{sku}"`. -/
def productEndpoint (sku : String) : String :=
  "/rest/V1/products/" ++ sku

/-- Endpoint of `update_product_stock`:
`f"/rest/V1/products/{sku}/stockItems/1"`. -/
def stockEndpoint (sku : String) : String :=
  "/rest/V1/products/" ++ sku ++ "/stockItems/1"

/-- Model of `Magento2Client.get_product_by_sku`: GET the product; a raised
`Magento2APIError` whose string contains `"404"` is converted to `None`
(product not found), any other error is re-raised. -/
def get_product_by_sku (world : World) (timeout : Nat) (sku : String) :
    List Request × Except String (Option String) :=
  let (tr, r) := make_request world "GET" (productEndpoint sku) Body.empty timeout
  match r with
  | .ok t => (tr, .ok (some t))
  | .error e =>
    if strContains e "404" then (tr, .ok none)
    else (tr, .error e)

/-- Model of `Magento2Client.update_product_stock`: when `is_in_stock` is `None` it
defaults to `quantity > 0`; the PUT body is
`{"stockItem": {"qty": quantity, "is_in_stock": is_in_stock}}`. -/
def update_product_stock (world : World) (timeout : Nat) (sku : String)
    (quantity : Rat) (is_in_stock : Option Bool) :
    List Request × Except String Bool :=
  let inStock : Bool :=
    match is_in_stock with
    | none => decide (quantity > 0)
    | some b => b
  let payload : Body := .stock ⟨quantity, inStock⟩
  let (tr, r) := make_request world "PUT" (stockEndpoint sku) payload timeout
  match r with
  | .ok _ => (tr, .ok true)
  | .error e => (tr, .error e)

/-! ## Plugin model (`plugin.py`) -/

/-- Resolved plugin settings, with the defaults of
`Magento2StockSyncPlugin.SETTINGS` (also the defaults passed to
`get_setting`). -/
structure Settings where
  enable_sync : Bool := false
  diagnostic_mode : Bool := false
  dry_run : Bool := false
  magento_url : String := ""
  access_token : String := ""
  timeout : Nat := 30
  verify_ssl : Bool := true
deriving DecidableEq, Repr

/-- A `Part` as the plugin reads it: primary key and name (the name is used
as the Magento SKU). -/
structure Part where
  pk : Nat
  name : String
deriving DecidableEq, Repr

/-- The event keyword arguments the plugin extracts (`kwargs.get("model")`,
`kwargs.get("id")`, `kwargs.get("instance")`).  Accessing `instance.part`
can itself raise (e.g. a broken foreign key), which the source does NOT
guard locally, so the instance is modelled as a fallible accessor. -/
structure EventData where
  model : Option String := none
  id : Option Nat := none
  inst : Option (Except String Part) := none

/-- The host database as the plugin queries it; each read may raise. -/
structure Db where
  getStockItemPart : Nat → Except String Part
  stockQuantities : Part → Except String (List (Option Rat))

/-- Log entries, one constructor per behaviourally relevant `logger.*`
call site of `plugin.py`. -/
inductive LogEntry
  | diagnosticLogged (event : String)
  | couldNotFetchStockItem (id : Nat) (msg : String)
  | couldNotDeterminePart (id : Option Nat)
  | partHasNoName (pk : Nat)
  | calcError (pk : Nat) (msg : String)
  | partQuantityInfo (sku : String) (pk : Nat) (qty : Rat)
  | syncingInfo (sku : String) (qty : Rat) (dryRun : Bool)
  | dryRunWouldUpdate (sku : String) (qty : Rat) (event : String)
  | configError (msg : String)
  | productNotFound (sku : String)
  | updatingStock (sku : String) (qty : Rat)
  | syncSuccess (sku : String) (qty : Rat)
  | syncFailed (sku : String) (msg : String)
  | processError (event : String) (msg : String)
deriving DecidableEq, Repr

/-- The explicit accept-list `stock_change_events` of
`wants_process_event`. -/
def stock_change_events : List String :=
  ["stockitem.quantityupdated",
   "stockitem.moved",
   "stockitem.counted",
   "stockitem.split",
   "stockitem.assignedtocustomer",
   "stockitem.returnedfromcustomer",
   "stockitem.returnedtostock",
   "stockitem.installed",
   "stockitem.created_items",
   "stock_stockitem.saved",
   "stock_stockitem.created",
   "stockitem.saved",
   "stockitem.created"]

/-- Model of `Magento2StockSyncPlugin.wants_process_event`: diagnostic mode accepts
every event; otherwise a disabled sync rejects every event; otherwise
membership in `stock_change_events` decides, overridden to `true` whenever
the event is nonempty and its lowercasing contains `"stock"`. -/
def wants_process_event (s : Settings) (event : String) : Bool :=
  if s.diagnostic_mode then
    true
  else if s.enable_sync = false then
    false
  else
    let should_process := stock_change_events.contains event
    let should_process :=
      if event != "" && strContains (toLowerStr event) "stock" then true
      else should_process
    should_process

/-- Model of `Magento2StockSyncPlugin._get_part_from_event`: prefer
`instance.part` (unguarded attribute access — may raise); otherwise, for
events not containing `"deleted"`, fetch the stock item from the database,
where a raised fetch error is caught and logged, falling through to
`None`. -/
def get_part_from_event (db : Db) (event : String)
    (inst : Option (Except String Part)) (stock_item_id : Option Nat) :
    List LogEntry × Except String (Option Part) :=
  match inst with
  | some acc =>
    match acc with
    | .ok p => ([], .ok (some p))
    | .error e => ([], .error e)
  | none =>
    if strContains event "deleted" = false then
      match stock_item_id with
      | none => ([], .ok none)
      | some iid =>
        match db.getStockItemPart iid with
        | .ok p => ([], .ok (some p))
        | .error e => ([.couldNotFetchStockItem iid e], .ok none)
    else
      ([], .ok none)

/-- Django's `aggregate(total=Sum("quantity"))`: SQL `SUM` skips `NULL`
values and yields `NULL` when no non-null value exists (in particular over
an empty row set). -/
def djangoSum (qs : List (Option Rat)) : Option Rat :=
  match qs.filterMap id with
  | [] => none
  | xs => some (xs.foldl (· + ·) 0)

/-- Model of `Magento2StockSyncPlugin._calculate_total_quantity`: aggregate the
quantities of the part's stock items; `result.get("total") or 0` maps a
null aggregate to `0`; any raised read error is caught, logged, and mapped
to `0`. -/
def calculate_total_quantity (db : Db) (part : Part) : List LogEntry × Rat :=
  match db.stockQuantities part with
  | .ok qs => ([], (djangoSum qs).getD 0)
  | .error e => ([.calcError part.pk e], 0)

/-- Model of `Magento2StockSyncPlugin._sync_to_magento`: in dry-run mode log the
would-be update and stop; otherwise build the client
(`get_magento_client` raises `ValueError` when URL or token is empty —
caught by the `except ValueError` branch), fetch the product, skip with a
warning when it is absent, and otherwise PUT the new quantity; every
raised error is caught and logged inside this function. -/
def sync_to_magento (s : Settings) (world : World) (sku : String)
    (quantity : Rat) (event : String) : List Request × List LogEntry :=
  let logs0 : List LogEntry := [.syncingInfo sku quantity s.dry_run]
  if s.dry_run then
    ([], logs0 ++ [.dryRunWouldUpdate sku quantity event])
  else if s.magento_url = "" ∨ s.access_token = "" then
    ([], logs0 ++
      [.configError "Magento 2 URL and Access Token must be configured in plugin settings"])
  else
    let (tr1, r1) := get_product_by_sku world s.timeout sku
    match r1 with
    | .ok none => (tr1, logs0 ++ [.productNotFound sku])
    | .ok (some _) =>
      let (tr2, r2) := update_product_stock world s.timeout sku quantity none
      match r2 with
      | .ok _ =>
        (tr1 ++ tr2, logs0 ++ [.updatingStock sku quantity, .syncSuccess sku quantity])
      | .error e =>
        (tr1 ++ tr2, logs0 ++ [.updatingStock sku quantity, .syncFailed sku e])
    | .error e => (tr1, logs0 ++ [.syncFailed sku e])

/-- The body of the `try` block of
`Magento2StockSyncPlugin.process_event`: resolve the part (whose
`instance.part` access may raise out of this block), check the SKU,
aggregate the quantity, and sync.  The final `Except` is what the block
raises, if anything. -/
def process_event_body (s : Settings) (db : Db) (world : World)
    (event : String) (kw : EventData) :
    List Request × List LogEntry × Except String Unit :=
  let (plogs, pres) := get_part_from_event db event kw.inst kw.id
  match pres with
  | .error e => ([], plogs, .error e)
  | .ok none => ([], plogs ++ [.couldNotDeterminePart kw.id], .ok ())
  | .ok (some part) =>
    let sku := part.name
    if sku = "" then
      ([], plogs ++ [.partHasNoName part.pk], .ok ())
    else
      let (qlogs, qty) := calculate_total_quantity db part
      let (reqs, slogs) := sync_to_magento s world sku qty event
      (reqs, plogs ++ qlogs ++ [.partQuantityInfo sku part.pk qty] ++ slogs, .ok ())

/-- Model of `Magento2StockSyncPlugin.process_event`: in diagnostic mode log the
event data and return without syncing; otherwise run the body inside
`try: ... except Exception`, which logs any raised error.  The last
component is what propagates to the event dispatcher. -/
def process_event (s : Settings) (db : Db) (world : World) (event : String)
    (kw : EventData) : List Request × List LogEntry × Except String Unit :=
  if s.diagnostic_mode then
    ([], [.diagnosticLogged event], .ok ())
  else
    match process_event_body s db world event kw with
    | (reqs, logs, .ok ()) => (reqs, logs, .ok ())
    | (reqs, logs, .error e) => (reqs, logs ++ [.processError event e], .ok ())

/-- Modelled from the spec: the host's event framework (the `EventMixin`
contract, external to this repository) calls `wants_process_event` for
every inbound event and invokes `process_event` only when it returns
true. -/
def handle_event (s : Settings) (db : Db) (world : World) (event : String)
    (kw : EventData) : List Request × List LogEntry × Except String Unit :=
  if wants_process_event s event then process_event s db world event kw
  else ([], [], .ok ())

/-- Modelled from the spec: the host's event-dispatch loop invokes the
orchestrator once per event and runs to the next event only when the
previous invocation returned normally; an escaping exception would crash
the loop.  Returns the number of events handled. -/
def dispatch_events (s : Settings) (db : Db) (world : World) :
    List (String × EventData) → Nat
  | [] => 0
  | (ev, kw) :: rest =>
    match (handle_event s db world ev kw).2.2 with
    | .ok _ => 1 + dispatch_events s db world rest
    | .error _ => 1

/-! ## Concrete environments, used to evaluate the model -/

/-- A remote that answers every attempt with 2xx. -/
def worldOK : World := fun _ _ _ => .success "ok"

/-- A remote that answers every attempt with 404. -/
def world404 : World := fun _ _ _ => .status 404 "Product not found"

/-- A remote that answers every attempt with 503. -/
def world503 : World := fun _ _ _ => .status 503 "Service Unavailable"

/-- A remote whose connection always fails. -/
def worldConn : World := fun _ _ _ => .connError "Connection refused"

/-- A remote that answers every attempt with a fixed status and body. -/
def worldStatus (code : Nat) (text : String) : World :=
  fun _ _ _ => .status code text

/-- A remote answering 400 with a body that happens to contain `"404"`. -/
def world400body : World := fun _ _ _ => .status 400 "order 404 not available"

/-- A concrete part. -/
def partW : Part := ⟨1, "WIDGET-1"⟩

/-- A database with no stock items. -/
def dbEmpty : Db :=
  { getStockItemPart := fun _ => Except.error "StockItem matching query does not exist",
    stockQuantities := fun _ => Except.ok [] }

/-- A database where `partW` has stock records [3, 0, null, 7]. -/
def dbW : Db :=
  { getStockItemPart := fun _ => Except.ok partW,
    stockQuantities := fun _ => Except.ok [some 3, some 0, none, some 7] }

/-- A database whose aggregate read raises. -/
def dbErr : Db :=
  { getStockItemPart := fun _ => Except.ok partW,
    stockQuantities := fun _ => Except.error "database connection lost" }

/-- Sync enabled with dry-run on. -/
def sDry : Settings := { enable_sync := true, dry_run := true }

/-- Sync enabled and fully configured, dry-run off. -/
def sLive : Settings :=
  { enable_sync := true, magento_url := "https://example.com",
    access_token := "token" }

/-- Sync disabled but diagnostic mode on. -/
def sDiag : Settings := { enable_sync := false, diagnostic_mode := true }

/-- Event data carrying a live instance for `partW`. -/
def kwW : EventData := { id := some 42, inst := some (Except.ok partW) }

/-- Event data whose `instance.part` access raises. -/
def kwRaise : EventData :=
  { id := some 7, inst := some (Except.error "part lookup failed") }

/-! ## Helper lemmas -/

/-- Every run of the session makes at least one attempt beyond the start
index. -/
theorem sessionAttempt_fst_gt (world : World) (method endpoint : String) :
    ∀ (r attempt : Nat),
      attempt < (sessionAttempt world method endpoint r attempt).1 := by
  intro r
  induction r with
  | zero =>
    intro attempt
    rcases h : world method endpoint attempt with t | ⟨code, t⟩ | m | _
    · simp only [sessionAttempt, h]
      exact Nat.lt_succ_self attempt
    · simp only [sessionAttempt, h]
      split
      · exact Nat.lt_succ_self attempt
      · exact Nat.lt_succ_self attempt
    · simp only [sessionAttempt, h]
      exact Nat.lt_succ_self attempt
    · simp only [sessionAttempt, h]
      exact Nat.lt_succ_self attempt
  | succ r ih =>
    intro attempt
    rcases h : world method endpoint attempt with t | ⟨code, t⟩ | m | _
    · simp only [sessionAttempt, h]
      exact Nat.lt_succ_self attempt
    · simp only [sessionAttempt, h]
      split
      · exact Nat.lt_trans (Nat.lt_succ_self attempt) (ih (attempt + 1))
      · exact Nat.lt_succ_self attempt
    · simp only [sessionAttempt, h]
      exact Nat.lt_trans (Nat.lt_succ_self attempt) (ih (attempt + 1))
    · simp only [sessionAttempt, h]
      exact Nat.lt_succ_self attempt

/-- The wire trace of `make_request` is one identical request per
attempt. -/
theorem make_request_fst (world : World) (method endpoint : String)
    (b : Body) (t : Nat) :
    (make_request world method endpoint b t).1 =
      List.replicate (session_request world method endpoint).1
        ⟨method, endpoint, b⟩ := by
  unfold make_request
  rcases h : session_request world method endpoint with ⟨n, r⟩
  rcases r with e | ⟨c, txt⟩
  · cases e <;> rfl
  · dsimp only
    split <;> rfl

/-- Every request issued by `make_request` carries the given method,
endpoint and body. -/
theorem make_request_mem (world : World) (method endpoint : String)
    (b : Body) (t : Nat) :
    ∀ r ∈ (make_request world method endpoint b t).1,
      r = (⟨method, endpoint, b⟩ : Request) := by
  intro r hr
  rw [make_request_fst] at hr
  exact List.eq_of_mem_replicate hr

/-- Lemma: `get_product_by_sku` issues exactly the requests of its underlying
GET. -/
theorem get_product_by_sku_fst (world : World) (t : Nat) (sku : String) :
    (get_product_by_sku world t sku).1 =
      (make_request world "GET" (productEndpoint sku) Body.empty t).1 := by
  unfold get_product_by_sku
  rcases h : make_request world "GET" (productEndpoint sku) Body.empty t with ⟨tr, r⟩
  rcases r with e | txt
  · dsimp only
    split <;> rfl
  · rfl

/-- Every request issued by `get_product_by_sku` is the GET of the product
endpoint. -/
theorem get_product_by_sku_mem (world : World) (t : Nat) (sku : String) :
    ∀ r ∈ (get_product_by_sku world t sku).1,
      r = (⟨"GET", productEndpoint sku, Body.empty⟩ : Request) := by
  intro r hr
  rw [get_product_by_sku_fst] at hr
  exact make_request_mem world "GET" (productEndpoint sku) Body.empty t r hr

/-- Lemma: `update_product_stock` with defaulted in-stock flag issues exactly the
requests of its underlying PUT with flag `quantity > 0`. -/
theorem update_product_stock_fst_none (world : World) (t : Nat)
    (sku : String) (qty : Rat) :
    (update_product_stock world t sku qty none).1 =
      (make_request world "PUT" (stockEndpoint sku)
        (Body.stock ⟨qty, decide (qty > 0)⟩) t).1 := by
  unfold update_product_stock
  dsimp only
  rcases h : make_request world "PUT" (stockEndpoint sku)
      (Body.stock ⟨qty, decide (qty > 0)⟩) t with ⟨tr, r⟩
  rcases r with e | v <;> rfl

/-- Lemma: `update_product_stock` with an explicit in-stock flag issues exactly
the requests of its underlying PUT with that flag. -/
theorem update_product_stock_fst_some (world : World) (t : Nat)
    (sku : String) (qty : Rat) (b : Bool) :
    (update_product_stock world t sku qty (some b)).1 =
      (make_request world "PUT" (stockEndpoint sku)
        (Body.stock ⟨qty, b⟩) t).1 := by
  unfold update_product_stock
  dsimp only
  rcases h : make_request world "PUT" (stockEndpoint sku)
      (Body.stock ⟨qty, b⟩) t with ⟨tr, r⟩
  rcases r with e | v <;> rfl

/-- Folding additions over the non-null entries equals folding with nulls
read as zero. -/
theorem foldl_filterMap_id (qs : List (Option Rat)) :
    ∀ a : Rat,
      (qs.filterMap id).foldl (· + ·) a =
        qs.foldl (fun b q => b + q.getD 0) a := by
  induction qs with
  | nil => intro a; rfl
  | cons q rest ih =>
    intro a
    cases q with
    | none => simpa using ih a
    | some x => simpa using ih (a + x)

/-- The null-defaulted aggregate equals the sum that reads nulls as
zero. -/
theorem djangoSum_getD (qs : List (Option Rat)) :
    (djangoSum qs).getD 0 = qs.foldl (fun b q => b + q.getD 0) 0 := by
  rw [← foldl_filterMap_id qs 0]
  unfold djangoSum
  cases h : qs.filterMap id with
  | nil => rfl
  | cons x xs => rfl

/-- The boundary `except Exception` of `process_event` means nothing
escapes to the caller. -/
theorem process_event_ok (s : Settings) (db : Db) (world : World)
    (event : String) (kw : EventData) :
    (process_event s db world event kw).2.2 = Except.ok () := by
  unfold process_event
  split
  · rfl
  · rcases h : process_event_body s db world event kw with ⟨reqs, logs, r⟩
    rcases r with e | u
    · rfl
    · cases u; rfl

/-- Nothing escapes `handle_event` either. -/
theorem handle_event_ok (s : Settings) (db : Db) (world : World)
    (event : String) (kw : EventData) :
    (handle_event s db world event kw).2.2 = Except.ok () := by
  unfold handle_event
  split
  · exact process_event_ok s db world event kw
  · rfl

/-- The requests of `process_event` are those of its body when diagnostic
mode is off, and none otherwise. -/
theorem process_event_fst (s : Settings) (db : Db) (world : World)
    (event : String) (kw : EventData) :
    (process_event s db world event kw).1 =
      if s.diagnostic_mode then []
      else (process_event_body s db world event kw).1 := by
  unfold process_event
  split
  · rfl
  · rcases h : process_event_body s db world event kw with ⟨reqs, logs, r⟩
    rcases r with e | u
    · rfl
    · cases u; rfl

/-- The logs of `process_event` extend those of its body when diagnostic
mode is off. -/
theorem process_event_logs (s : Settings) (db : Db) (world : World)
    (event : String) (kw : EventData) :
    s.diagnostic_mode = false →
    ∀ l ∈ (process_event_body s db world event kw).2.1,
      l ∈ (process_event s db world event kw).2.1 := by
  intro hd l hl
  unfold process_event
  rw [if_neg (by simp [hd])]
  rcases h : process_event_body s db world event kw with ⟨reqs, logs, r⟩
  rw [h] at hl
  rcases r with e | u
  · exact List.mem_append_left _ hl
  · cases u
    exact hl

/-! ## Claim theorems -/

/-- C1 counterexample: the event name "stocktake" is not a member of the
configured accept-set `stock_change_events`, yet with sync enabled and
diagnostic mode off `wants_process_event` returns true for it, because of
the fallback that accepts any event whose lowercased name contains
"stock". -/
theorem wants_process_event_substring_override :
    stock_change_events.contains "stocktake" = false ∧
    wants_process_event { enable_sync := true } "stocktake" = true := by
  constructor
  · decide
  · decide

/-- C1 (amended): for every event name that is not a member of the
configured accept-set of stock-change event kinds AND whose lowercasing
does not contain the substring "stock", provided diagnostic mode is off,
`wants_process_event` returns false and no remote call occurs for that
event. -/
theorem wants_process_event_rejects_unlisted :
    ∀ (s : Settings) (db : Db) (world : World) (event : String)
      (kw : EventData),
      s.diagnostic_mode = false →
      stock_change_events.contains event = false →
      strContains (toLowerStr event) "stock" = false →
      wants_process_event s event = false ∧
      (handle_event s db world event kw).1 = [] := by
  intro s db world event kw hdiag hmem hsub
  have hw : wants_process_event s event = false := by
    unfold wants_process_event
    rw [if_neg (by simp [hdiag])]
    cases he : s.enable_sync with
    | false => simp
    | true =>
      rw [if_neg (by simp [he])]
      simp [hsub]
      simpa using hmem
  refine ⟨hw, ?_⟩
  unfold handle_event
  simp [hw]

/-- Witness for the amended C1 at a concrete rejected event. -/
theorem wants_process_event_rejects_unlisted_witness :
    stock_change_events.contains "order.completed" = false ∧
    wants_process_event sLive "order.completed" = false ∧
    (handle_event sLive dbEmpty worldOK "order.completed" {}).1 = [] :=
  ⟨by decide,
   (wants_process_event_rejects_unlisted sLive dbEmpty worldOK
     "order.completed" {} (by decide) (by decide) (by decide)).1,
   (wants_process_event_rejects_unlisted sLive dbEmpty worldOK
     "order.completed" {} (by decide) (by decide) (by decide)).2⟩

/-- C2 counterexample: with the global enable switch false but diagnostic
mode true, `wants_process_event` returns true for an event (even one
outside the accept-set). -/
theorem wants_process_event_diagnostic_overrides_disable :
    sDiag.enable_sync = false ∧
    wants_process_event sDiag "order.completed" = true := by
  constructor
  · decide
  · decide

/-- C2 (amended): whenever the global enable switch (ENABLE_SYNC) is false
and DIAGNOSTIC_MODE is also false, `wants_process_event` returns false for
every event name. -/
theorem wants_process_event_disabled_rejects :
    ∀ (s : Settings) (event : String),
      s.enable_sync = false → s.diagnostic_mode = false →
      wants_process_event s event = false := by
  intro s event hen hdiag
  unfold wants_process_event
  rw [if_neg (by simp [hdiag]), if_pos hen]

/-- Witness for the amended C2: the default settings reject even an event
of the accept-set. -/
theorem wants_process_event_disabled_rejects_witness :
    ({} : Settings).enable_sync = false ∧
    wants_process_event {} "stockitem.quantityupdated" = false :=
  ⟨by decide,
   wants_process_event_disabled_rejects {} "stockitem.quantityupdated"
     (by decide) (by decide)⟩

/-- C3: for every settings, database, network, event and event data, every
error raised while processing the single event is caught at the boundary of
`process_event`, which logs the error (the `processError` entry appears in
the logs whenever the body raises) and returns normally; consequently the
dispatch loop handles every event of any event list, so one event's
failure never blocks processing of the next event. -/
theorem process_event_isolates_errors :
    ∀ (s : Settings) (db : Db) (world : World) (event : String)
      (kw : EventData) (evs : List (String × EventData)),
      (process_event s db world event kw).2.2 = Except.ok () ∧
      (s.diagnostic_mode = false →
        ∀ e, (process_event_body s db world event kw).2.2 = Except.error e →
          LogEntry.processError event e ∈
            (process_event s db world event kw).2.1) ∧
      dispatch_events s db world evs = evs.length := by
  intro s db world event kw evs
  refine ⟨process_event_ok s db world event kw, ?_, ?_⟩
  · intro hdiag e he
    unfold process_event
    rw [if_neg (by simp [hdiag])]
    rcases hb : process_event_body s db world event kw with ⟨reqs, logs, r⟩
    rw [hb] at he
    dsimp only at he
    subst he
    simp
  · induction evs with
    | nil => rfl
    | cons e rest ih =>
      rcases e with ⟨ev, kw2⟩
      unfold dispatch_events
      rw [handle_event_ok s db world ev kw2, ih]
      show 1 + rest.length = rest.length + 1
      omega

/-- Witness for C3: a raising `instance.part` access makes the body raise;
the boundary catches it, logs the `processError` entry, returns normally,
and the dispatch loop still handles both events of a two-event list. -/
theorem process_event_isolates_errors_witness :
    (process_event_body sLive dbEmpty worldOK "stockitem.counted"
        kwRaise).2.2 = Except.error "part lookup failed" ∧
    (process_event sLive dbEmpty worldOK "stockitem.counted" kwRaise).2.2 =
      Except.ok () ∧
    LogEntry.processError "stockitem.counted" "part lookup failed" ∈
      (process_event sLive dbEmpty worldOK "stockitem.counted" kwRaise).2.1 ∧
    dispatch_events sLive dbEmpty worldOK
        [("stockitem.counted", kwRaise),
         ("stockitem.quantityupdated", kwRaise)] = 2 :=
  ⟨by decide,
   (process_event_isolates_errors sLive dbEmpty worldOK "stockitem.counted"
      kwRaise []).1,
   (process_event_isolates_errors sLive dbEmpty worldOK "stockitem.counted"
      kwRaise []).2.1 rfl "part lookup failed" (by decide),
   (process_event_isolates_errors sLive dbEmpty worldOK "stockitem.counted"
      kwRaise [("stockitem.counted", kwRaise),
               ("stockitem.quantityupdated", kwRaise)]).2.2⟩

/-- C9: when DIAGNOSTIC_MODE is true, `wants_process_event` returns true
for every event name — regardless of ENABLE_SYNC and of membership in the
accept-set — and `process_event` returns after logging the event data,
issuing no request (so no client is built and no remote call occurs). -/
theorem diagnostic_mode_processes_all :
    ∀ (s : Settings) (db : Db) (world : World) (event : String)
      (kw : EventData),
      s.diagnostic_mode = true →
      wants_process_event s event = true ∧
      process_event s db world event kw =
        ([], [LogEntry.diagnosticLogged event], Except.ok ()) := by
  intro s db world event kw hd
  constructor
  · unfold wants_process_event
    rw [if_pos hd]
  · unfold process_event
    rw [if_pos hd]

/-- Witness for C9: sync disabled, event outside the accept-set, and yet
the event is accepted and logged with no request issued. -/
theorem diagnostic_mode_processes_all_witness :
    sDiag.enable_sync = false ∧
    stock_change_events.contains "order.completed" = false ∧
    wants_process_event sDiag "order.completed" = true ∧
    process_event sDiag dbEmpty worldOK "order.completed" {} =
      ([], [LogEntry.diagnosticLogged "order.completed"], Except.ok ()) :=
  ⟨by decide, by decide,
   (diagnostic_mode_processes_all sDiag dbEmpty worldOK "order.completed" {}
     rfl).1,
   (diagnostic_mode_processes_all sDiag dbEmpty worldOK "order.completed" {}
     rfl).2⟩

/-- C6: `_calculate_total_quantity` returns the sum of the on-hand
quantities of the stock items belonging to the part, a missing/null
quantity contributing 0 (so zero items sum to 0), and on any read error it
logs the error and returns 0 instead of raising. -/
theorem calculate_total_quantity_correct :
    ∀ (db : Db) (p : Part),
      (∀ qs, db.stockQuantities p = Except.ok qs →
        calculate_total_quantity db p =
          ([], qs.foldl (fun b q => b + q.getD 0) 0)) ∧
      (∀ e, db.stockQuantities p = Except.error e →
        calculate_total_quantity db p = ([LogEntry.calcError p.pk e], 0)) := by
  intro db p
  constructor
  · intro qs h
    unfold calculate_total_quantity
    rw [h]
    show ([], (djangoSum qs).getD 0) =
      ([], qs.foldl (fun b q => b + q.getD 0) 0)
    rw [djangoSum_getD]
  · intro e h
    unfold calculate_total_quantity
    rw [h]

/-- Witness for C6: items [3, 0, null, 7] sum to 10, zero items sum to 0,
and a raised read error yields 0 together with a log entry. -/
theorem calculate_total_quantity_correct_witness :
    calculate_total_quantity dbW partW = ([], 10) ∧
    calculate_total_quantity dbEmpty partW = ([], 0) ∧
    calculate_total_quantity dbErr partW =
      ([LogEntry.calcError 1 "database connection lost"], 0) := by
  refine ⟨?_, ?_, ?_⟩
  · rw [(calculate_total_quantity_correct dbW partW).1
      [some 3, some 0, none, some 7] rfl]
    norm_num [List.foldl]
  · rw [(calculate_total_quantity_correct dbEmpty partW).1 [] rfl]
    rfl
  · exact (calculate_total_quantity_correct dbErr partW).2
      "database connection lost" rfl

/-- C7: every request issued by `update_product_stock` is a PUT to the
stock endpoint whose body is the stockItem payload `{qty, is_in_stock}`
with the given quantity; the in-stock flag defaults to `quantity > 0` when
unspecified (so quantity 0 sends false and quantity 5 sends true) and an
explicitly supplied flag is sent unchanged; at least one such request is
attempted. -/
theorem update_product_stock_payload :
    ∀ (world : World) (t : Nat) (sku : String) (qty : Rat)
      (isin : Option Bool),
      ∃ n : Nat, 1 ≤ n ∧
        (update_product_stock world t sku qty isin).1 =
          List.replicate n
            (⟨"PUT", stockEndpoint sku,
              Body.stock ⟨qty, isin.getD (decide (qty > 0))⟩⟩ : Request) := by
  intro world t sku qty isin
  refine ⟨(session_request world "PUT" (stockEndpoint sku)).1, ?_, ?_⟩
  · exact sessionAttempt_fst_gt world "PUT" (stockEndpoint sku) retry_total 0
  · cases isin with
    | none =>
      rw [update_product_stock_fst_none, make_request_fst]
      rfl
    | some b =>
      rw [update_product_stock_fst_some, make_request_fst]
      rfl

/-- C4: with the dry-run switch enabled, `_sync_to_magento` stops right
after logging the would-be update — before building the client, before the
existence-check fetch and before the update — issuing no request, and the
whole `process_event` pipeline issues zero outbound requests; whenever the
pipeline resolves a named part (diagnostic mode off), the log entry
describing the would-be update appears in the logs. -/
theorem dry_run_zero_requests :
    ∀ (s : Settings) (db : Db) (world : World) (event : String)
      (kw : EventData),
      s.dry_run = true →
      (∀ (sku : String) (qty : Rat),
        sync_to_magento s world sku qty event =
          ([], [LogEntry.syncingInfo sku qty true,
                LogEntry.dryRunWouldUpdate sku qty event])) ∧
      (process_event s db world event kw).1 = [] ∧
      (handle_event s db world event kw).1 = [] ∧
      (s.diagnostic_mode = false →
        ∀ p : Part,
          (get_part_from_event db event kw.inst kw.id).2 = Except.ok (some p) →
          p.name ≠ "" →
          LogEntry.dryRunWouldUpdate p.name
              (calculate_total_quantity db p).2 event ∈
            (process_event s db world event kw).2.1) := by
  intro s db world event kw hdry
  have hsync : ∀ (sku : String) (qty : Rat),
      sync_to_magento s world sku qty event =
        ([], [LogEntry.syncingInfo sku qty true,
              LogEntry.dryRunWouldUpdate sku qty event]) := by
    intro sku qty
    unfold sync_to_magento
    rw [hdry]
    rw [if_pos rfl]
    rfl
  have hbody : (process_event_body s db world event kw).1 = [] := by
    unfold process_event_body
    rcases hgp : get_part_from_event db event kw.inst kw.id with ⟨plogs, pres⟩
    rcases pres with e | op
    · rfl
    · rcases op with _ | p
      · rfl
      · dsimp only
        by_cases hname : p.name = ""
        · rw [if_pos hname]
        · rw [if_neg hname]
          rcases hq : calculate_total_quantity db p with ⟨qlogs, qty⟩
          rw [hsync p.name qty]
  have hpe : (process_event s db world event kw).1 = [] := by
    rw [process_event_fst]
    by_cases hd : s.diagnostic_mode = true
    · rw [if_pos hd]
    · rw [if_neg hd, hbody]
  have hhe : (handle_event s db world event kw).1 = [] := by
    unfold handle_event
    split
    · exact hpe
    · rfl
  refine ⟨hsync, hpe, hhe, ?_⟩
  intro hdiag p hp hname
  apply process_event_logs s db world event kw hdiag
  unfold process_event_body
  rcases hgp : get_part_from_event db event kw.inst kw.id with ⟨plogs, pres⟩
  rw [hgp] at hp
  dsimp only at hp
  subst hp
  dsimp only
  rw [if_neg hname]
  rcases hq : calculate_total_quantity db p with ⟨qlogs, qty⟩
  rw [hsync p.name qty]
  simp

/-- Witness for C4: a dry-run configuration with a resolvable part issues
no request and logs the would-be update of quantity 10. -/
theorem dry_run_zero_requests_witness :
    sDry.dry_run = true ∧
    (process_event sDry dbW worldOK "stockitem.quantityupdated" kwW).1 = [] ∧
    LogEntry.dryRunWouldUpdate "WIDGET-1"
        (calculate_total_quantity dbW partW).2 "stockitem.quantityupdated" ∈
      (process_event sDry dbW worldOK "stockitem.quantityupdated" kwW).2.1 :=
  ⟨rfl,
   (dry_run_zero_requests sDry dbW worldOK "stockitem.quantityupdated" kwW
     rfl).2.1,
   (dry_run_zero_requests sDry dbW worldOK "stockitem.quantityupdated" kwW
     rfl).2.2.2 rfl partW rfl (by decide)⟩

/-- C5: when the remote fetch reports the product missing
(`get_product_by_sku` returns `None`), `_sync_to_magento` abandons the
sync: every request it issues is the existence-check GET — no PUT is ever
issued, so the product is never updated or created remotely — and, when
the sync path actually runs (dry-run off, URL and token configured), the
warning log entry is produced. -/
theorem notfound_skips_update :
    ∀ (s : Settings) (world : World) (sku : String) (qty : Rat)
      (event : String),
      (get_product_by_sku world s.timeout sku).2 = Except.ok none →
      (∀ r ∈ (sync_to_magento s world sku qty event).1,
        r.method = "GET") ∧
      (s.dry_run = false → s.magento_url ≠ "" → s.access_token ≠ "" →
        LogEntry.productNotFound sku ∈
          (sync_to_magento s world sku qty event).2) := by
  intro s world sku qty event hnf
  unfold sync_to_magento
  cases hd : s.dry_run with
  | true =>
    rw [if_pos rfl]
    constructor
    · intro r hr
      simp at hr
    · intro hdf
      exact absurd hdf (by simp)
  | false =>
    rw [if_neg (by simp)]
    by_cases hc : s.magento_url = "" ∨ s.access_token = ""
    · rw [if_pos hc]
      constructor
      · intro r hr
        simp at hr
      · intro hdf hurl htok
        rcases hc with h | h
        · exact absurd h hurl
        · exact absurd h htok
    · rw [if_neg hc]
      rcases hg : get_product_by_sku world s.timeout sku with ⟨tr1, r1⟩
      rw [hg] at hnf
      dsimp only at hnf
      subst hnf
      constructor
      · intro r hr
        have hmem := get_product_by_sku_mem world s.timeout sku r
          (by rw [hg]; exact hr)
        rw [hmem]
      · intro hdf hurl htok
        simp

/-- Witness for C5: a remote answering 404 makes the fetch report the
product missing; the configured live sync then logs the warning and issues
no PUT. -/
theorem notfound_skips_update_witness :
    (get_product_by_sku world404 sLive.timeout "X").2 = Except.ok none ∧
    LogEntry.productNotFound "X" ∈
      (sync_to_magento sLive world404 "X" 5 "stockitem.counted").2 :=
  ⟨by decide,
   (notfound_skips_update sLive world404 "X" 5 "stockitem.counted"
     (by decide)).2 rfl (by decide) (by decide)⟩

/-- On a remote that always answers 503, the session consumes all retries
and raises the max-retries error. -/
theorem sessionAttempt_world503 (ep : String) :
    ∀ (r a : Nat),
      sessionAttempt world503 "GET" ep r a =
        (a + r + 1, Except.error (SessionError.retryError 503)) := by
  intro r
  induction r with
  | zero => intro a; rfl
  | succ r ih =>
    intro a
    simp only [sessionAttempt, world503]
    rw [if_pos (by decide)]
    rw [ih (a + 1)]
    have harith : a + 1 + r + 1 = a + (r + 1) + 1 := by omega
    rw [harith]

/-- On a remote whose connection always fails, the session consumes all
retries and raises the connection error. -/
theorem sessionAttempt_worldConn (ep : String) :
    ∀ (r a : Nat),
      sessionAttempt worldConn "GET" ep r a =
        (a + r + 1,
         Except.error (SessionError.connectionError "Connection refused")) := by
  intro r
  induction r with
  | zero => intro a; rfl
  | succ r ih =>
    intro a
    simp only [sessionAttempt, worldConn]
    rw [ih (a + 1)]
    have harith : a + 1 + r + 1 = a + (r + 1) + 1 := by omega
    rw [harith]

/-- A status outside the transient force-list is never retried: one
attempt, response returned. -/
theorem sessionAttempt_nontransient (code : Nat) (text ep method : String) :
    status_forcelist.contains code = false →
    ∀ (r a : Nat),
      sessionAttempt (worldStatus code text) method ep r a =
        (a + 1, Except.ok (code, text)) := by
  intro hc r a
  have hnc : code ∉ status_forcelist := by simpa using hc
  cases r with
  | zero =>
    simp only [sessionAttempt, worldStatus]
    rw [if_neg (by simp [hnc])]
  | succ r =>
    simp only [sessionAttempt, worldStatus]
    rw [if_neg (by simp [hnc])]

/-- The full request against the always-503 remote: four identical
attempts, then the error surfaces as a `Magento2APIError`. -/
theorem make_request_world503 (ep : String) (b : Body) (t : Nat) :
    make_request world503 "GET" ep b t =
      (List.replicate 4 (⟨"GET", ep, b⟩ : Request),
       Except.error "Unexpected error: too many 503 error responses") := by
  unfold make_request session_request
  rw [sessionAttempt_world503 ep retry_total 0]
  rfl

/-- The fetch against the always-503 remote. -/
theorem get_product_world503 (t : Nat) (sku : String) :
    get_product_by_sku world503 t sku =
      (List.replicate 4
        (⟨"GET", productEndpoint sku, Body.empty⟩ : Request),
       Except.error "Unexpected error: too many 503 error responses") := by
  unfold get_product_by_sku
  rw [make_request_world503]
  dsimp only
  rw [if_neg (by decide)]

/-- The full request against the failing-connection remote. -/
theorem make_request_worldConn (ep : String) (b : Body) (t : Nat) :
    make_request worldConn "GET" ep b t =
      (List.replicate 4 (⟨"GET", ep, b⟩ : Request),
       Except.error "Connection error: Connection refused") := by
  unfold make_request session_request
  rw [sessionAttempt_worldConn ep retry_total 0]
  rfl

/-- The fetch against the failing-connection remote. -/
theorem get_product_worldConn (t : Nat) (sku : String) :
    get_product_by_sku worldConn t sku =
      (List.replicate 4
        (⟨"GET", productEndpoint sku, Body.empty⟩ : Request),
       Except.error "Connection error: Connection refused") := by
  unfold get_product_by_sku
  rw [make_request_worldConn]
  dsimp only
  rw [if_neg (by decide)]

/-- A fetch that raises makes `_sync_to_magento` abandon with the failure
log, issuing only the fetch's requests. -/
theorem sync_to_magento_fetch_error (s : Settings) (world : World)
    (sku : String) (qty : Rat) (event : String) (tr : List Request)
    (e : String) :
    s.dry_run = false → ¬(s.magento_url = "" ∨ s.access_token = "") →
    get_product_by_sku world s.timeout sku = (tr, Except.error e) →
    sync_to_magento s world sku qty event =
      (tr, [LogEntry.syncingInfo sku qty false,
            LogEntry.syncFailed sku e]) := by
  intro hd hc hg
  unfold sync_to_magento
  rw [hd]
  rw [if_neg (by simp)]
  rw [if_neg hc]
  rw [hg]
  rfl

/-- C8: a transient 503 on the fetch is retried up to the configured bound
(`retry_total` = 3 retries, hence 4 attempts), after which the failure
surfaces as a `Magento2APIError` message; connection-level failures are
likewise retried to the bound; a status outside
{429, 500, 502, 503, 504} gets a single attempt; and the orchestrator
abandons the sync — logging the failure, issuing no PUT — without raising
past its boundary. -/
theorem transient_retries_bounded :
    ∀ (s : Settings) (db : Db) (sku : String) (qty : Rat) (event : String)
      (kw : EventData),
      ((get_product_by_sku world503 s.timeout sku).1.length =
          retry_total + 1 ∧
       (get_product_by_sku world503 s.timeout sku).2 =
         Except.error "Unexpected error: too many 503 error responses") ∧
      ((get_product_by_sku worldConn s.timeout sku).1.length =
          retry_total + 1 ∧
       (get_product_by_sku worldConn s.timeout sku).2 =
         Except.error "Connection error: Connection refused") ∧
      (∀ (code : Nat) (text : String),
        status_forcelist.contains code = false →
        (make_request (worldStatus code text) "GET" (productEndpoint sku)
          Body.empty s.timeout).1.length = 1) ∧
      (s.dry_run = false → s.magento_url ≠ "" → s.access_token ≠ "" →
        (∀ r ∈ (sync_to_magento s world503 sku qty event).1,
          r.method = "GET") ∧
        LogEntry.syncFailed sku
            "Unexpected error: too many 503 error responses" ∈
          (sync_to_magento s world503 sku qty event).2) ∧
      (process_event s db world503 event kw).2.2 = Except.ok () := by
  intro s db sku qty event kw
  refine ⟨⟨?_, ?_⟩, ⟨?_, ?_⟩, ?_, ?_, process_event_ok s db world503 event kw⟩
  · rw [get_product_world503]
    rfl
  · rw [get_product_world503]
  · rw [get_product_worldConn]
    rfl
  · rw [get_product_worldConn]
  · intro code text hc
    rw [make_request_fst, List.length_replicate]
    show (sessionAttempt (worldStatus code text) "GET" (productEndpoint sku)
      retry_total 0).1 = 1
    rw [sessionAttempt_nontransient code text (productEndpoint sku) "GET"
      hc retry_total 0]
  · intro hdf hurl htok
    have hc : ¬(s.magento_url = "" ∨ s.access_token = "") := by
      rintro (h | h)
      · exact hurl h
      · exact htok h
    rw [sync_to_magento_fetch_error s world503 sku qty event
      (List.replicate 4 (⟨"GET", productEndpoint sku, Body.empty⟩ : Request))
      "Unexpected error: too many 503 error responses" hdf hc
      (get_product_world503 s.timeout sku)]
    constructor
    · intro r hr
      rw [List.eq_of_mem_replicate hr]
    · simp

/-- Witness for C8: the concrete live configuration against the always-503
remote makes exactly four attempts, logs the surfaced failure, and a 404
status is not retried. -/
theorem transient_retries_bounded_witness :
    (get_product_by_sku world503 30 "WIDGET-1").1.length = 4 ∧
    LogEntry.syncFailed "WIDGET-1"
        "Unexpected error: too many 503 error responses" ∈
      (sync_to_magento sLive world503 "WIDGET-1" 5 "stockitem.counted").2 ∧
    (make_request (worldStatus 404 "nf") "GET" (productEndpoint "WIDGET-1")
      Body.empty 30).1.length = 1 :=
  ⟨(transient_retries_bounded sLive dbEmpty "WIDGET-1" 5 "stockitem.counted"
      {}).1.1,
   ((transient_retries_bounded sLive dbEmpty "WIDGET-1" 5 "stockitem.counted"
      {}).2.2.2.1 rfl (by decide) (by decide)).2,
   (transient_retries_bounded sLive dbEmpty "WIDGET-1" 5 "stockitem.counted"
      {}).2.2.1 404 "nf" (by decide)⟩

/-- C10: `get_product_by_sku` classifies a raised `Magento2APIError` as
NotFound (returning `None` instead of re-raising) exactly when the string
form of the error contains the substring "404"; an error whose message
lacks "404" is re-raised; and an error whose message merely contains "404"
in the response body text is also treated as NotFound. -/
theorem get_product_notfound_iff_404 :
    ∀ (world : World) (t : Nat) (sku : String) (e : String),
      (make_request world "GET" (productEndpoint sku) Body.empty t).2 =
        Except.error e →
      (((get_product_by_sku world t sku).2 = Except.ok none) ↔
        strContains e "404" = true) ∧
      (strContains e "404" = false →
        (get_product_by_sku world t sku).2 = Except.error e) ∧
      (get_product_by_sku world400body 30 "SKU-1").2 = Except.ok none := by
  intro world t sku e hm
  unfold get_product_by_sku
  rcases hg : make_request world "GET" (productEndpoint sku) Body.empty t
    with ⟨tr, r⟩
  rw [hg] at hm
  dsimp only at hm
  subst hm
  dsimp only
  refine ⟨?_, ?_, by decide⟩
  · by_cases h4 : strContains e "404" = true
    · rw [if_pos h4]
      simp [h4]
    · rw [if_neg h4]
      simp [h4]
  · intro h4
    rw [if_neg (by simp [h4])]

/-- Witness for C10: a 404 status maps to NotFound; an error without "404"
in its message is re-raised unchanged. -/
theorem get_product_notfound_iff_404_witness :
    (get_product_by_sku world404 30 "X").2 = Except.ok none ∧
    (get_product_by_sku worldConn 30 "X").2 =
      Except.error "Connection error: Connection refused" :=
  ⟨(get_product_notfound_iff_404 world404 30 "X" "HTTP 404: Product not found"
      (by decide)).1.mpr (by decide),
   (get_product_notfound_iff_404 worldConn 30 "X"
      "Connection error: Connection refused" (by decide)).2.1 (by decide)⟩

end M2QtySync
